import Mathlib

/-!
Verification development for the Trading repository's risk analytics
specification.  The web client (apps/web), its API modules and the backend
design documents are embedded shallowly; the numerical engine itself
(apps/api-server) is not among the available sources, so its risk formulas
are modelled from the specification text over the real numbers.
-/

namespace Trading

open Matrix

/-! ## Risk Metrics Computer (spec 4.3)

Modelled from the spec: the Risk Metrics Computer lives in
`apps/api-server` which is not among the available sources; the formulas
below follow the spec's 4.3 word for word. -/

/-- Modelled from the spec: portfolio variance `wᵀ Σ w` (spec 4.3). -/
noncomputable def portfolioVariance {n : ℕ} (cov : Matrix (Fin n) (Fin n) ℝ)
    (w : Fin n → ℝ) : ℝ :=
  dotProduct w (cov.mulVec w)

/-- Modelled from the spec: 1-day portfolio volatility `√(wᵀ Σ w)` (spec 4.3). -/
noncomputable def portfolioVol {n : ℕ} (cov : Matrix (Fin n) (Fin n) ℝ)
    (w : Fin n → ℝ) : ℝ :=
  Real.sqrt (portfolioVariance cov w)

/-- Modelled from the spec: marginal contribution to risk
`MCR_i = (Σw)_i / portfolio_vol` (spec 4.3). -/
noncomputable def mcr {n : ℕ} (cov : Matrix (Fin n) (Fin n) ℝ)
    (w : Fin n → ℝ) (i : Fin n) : ℝ :=
  cov.mulVec w i / portfolioVol cov w

/-- Modelled from the spec: component contribution to risk
`CCR_i = weight_i · MCR_i` (spec 4.3). -/
noncomputable def ccr {n : ℕ} (cov : Matrix (Fin n) (Fin n) ℝ)
    (w : Fin n → ℝ) (i : Fin n) : ℝ :=
  w i * mcr cov w i

/-- C1: for every weight vector and symmetric covariance matrix with positive
portfolio volatility, the component contributions to risk sum exactly to the
portfolio volatility (Euler identity for the risk decomposition). -/
theorem ccr_sum_eq_portfolioVol {n : ℕ} (cov : Matrix (Fin n) (Fin n) ℝ)
    (w : Fin n → ℝ) (hsym : cov.IsSymm) (hvol : 0 < portfolioVol cov w) :
    ∑ i, ccr cov w i = portfolioVol cov w := by
  have hvar : 0 < portfolioVariance cov w := Real.sqrt_pos.mp hvol
  have hsq : portfolioVol cov w ^ 2 = portfolioVariance cov w :=
    Real.sq_sqrt hvar.le
  have hsum : ∑ i, ccr cov w i = portfolioVariance cov w / portfolioVol cov w := by
    simp only [ccr, mcr, mul_div_assoc']
    rw [← Finset.sum_div]
    rfl
  rw [hsum, ← hsq, pow_two, mul_div_assoc, div_self hvol.ne', mul_one]

/-- Witness for C1 at a concrete input: the 1×1 identity covariance and full
weight on the single position. -/
theorem ccr_sum_eq_portfolioVol_witness :
    ∑ i, ccr (1 : Matrix (Fin 1) (Fin 1) ℝ) (fun _ => 1) i =
      portfolioVol (1 : Matrix (Fin 1) (Fin 1) ℝ) (fun _ => 1) :=
  ccr_sum_eq_portfolioVol _ _ Matrix.transpose_one
    (by
      have h1 : portfolioVariance (1 : Matrix (Fin 1) (Fin 1) ℝ) (fun _ => 1) = 1 := by
        simp [portfolioVariance, dotProduct, Matrix.one_mulVec]
      rw [portfolioVol, h1, Real.sqrt_one]
      exact one_pos)

/-! ## Parametric VaR and ES (spec 4.3)

Modelled from the spec: `VaR_q = z_q · vol_1d · portfolio_value` and
`ES_q = vol_1d · portfolio_value · φ(z_q)/(1−q)` with `z_95 = 1.645`,
`z_99 = 2.326` and `φ` the standard normal density. -/

/-- Modelled from the spec: the 95% standard normal quantile used by the engine. -/
noncomputable def z95 : ℝ := 1.645

/-- Modelled from the spec: the 99% standard normal quantile used by the engine. -/
noncomputable def z99 : ℝ := 2.326

/-- Modelled from the spec: standard normal density `φ(z) = e^(−z²/2)/√(2π)`. -/
noncomputable def stdNormalPdf (z : ℝ) : ℝ :=
  Real.exp (-(z ^ 2 / 2)) / Real.sqrt (2 * Real.pi)

/-- Modelled from the spec: parametric value-at-risk `z_q · vol_1d · portfolio_value`. -/
noncomputable def parametricVaR (z vol pv : ℝ) : ℝ := z * vol * pv

/-- Modelled from the spec: parametric expected shortfall
`vol_1d · portfolio_value · φ(z_q)/(1−q)`. -/
noncomputable def parametricES (z q vol pv : ℝ) : ℝ :=
  vol * pv * (stdNormalPdf z / (1 - q))

lemma exp_le_inv_one_sub {y : ℝ} (h0 : 0 ≤ y) (h1 : y < 1) :
    Real.exp y ≤ (1 - y)⁻¹ := by
  have hpos : 0 < 1 - y := by linarith
  have h2 : 1 - y ≤ Real.exp (-y) := by
    have := Real.add_one_le_exp (-y)
    linarith
  have key : Real.exp y * (1 - y) ≤ 1 := by
    calc Real.exp y * (1 - y) ≤ Real.exp y * Real.exp (-y) :=
          mul_le_mul_of_nonneg_left h2 (Real.exp_pos y).le
      _ = 1 := by rw [← Real.exp_add]; simp
  calc Real.exp y = Real.exp y * (1 - y) * (1 - y)⁻¹ := by field_simp
    _ ≤ 1 * (1 - y)⁻¹ := mul_le_mul_of_nonneg_right key (inv_nonneg.mpr hpos.le)
    _ = (1 - y)⁻¹ := one_mul _

lemma exp_le_pow_bound (x : ℝ) (n : ℕ) (hn : 0 < n) (h0 : 0 ≤ x)
    (h1 : x / n < 1) : Real.exp x ≤ ((1 - x / n)⁻¹) ^ n := by
  have hne : (n : ℝ) ≠ 0 := Nat.cast_ne_zero.mpr hn.ne'
  have hx : Real.exp x = Real.exp (x / n) ^ n := by
    rw [← Real.exp_nat_mul]
    congr 1
    field_simp
  rw [hx]
  exact pow_le_pow_left (Real.exp_nonneg _)
    (exp_le_inv_one_sub (by positivity) h1) n

lemma sqrt_two_pi_le : Real.sqrt (2 * Real.pi) ≤ 2.51 := by
  have h : (2 : ℝ) * Real.pi ≤ 2.51 ^ 2 := by nlinarith [Real.pi_lt_315]
  calc Real.sqrt (2 * Real.pi) ≤ Real.sqrt (2.51 ^ 2) := Real.sqrt_le_sqrt h
    _ = 2.51 := Real.sqrt_sq (by norm_num)

lemma sqrt_two_pi_pos : 0 < Real.sqrt (2 * Real.pi) :=
  Real.sqrt_pos.mpr (by positivity)

lemma tail95 : z95 ≤ stdNormalPdf z95 / (1 - 0.95) := by
  have hexp : Real.exp (z95 ^ 2 / 2) ≤ ((640000 / 531759 : ℝ)) ^ 8 := by
    have h := exp_le_pow_bound (z95 ^ 2 / 2) 8 (by norm_num)
      (by norm_num [z95]) (by norm_num [z95])
    calc Real.exp (z95 ^ 2 / 2) ≤ ((1 - (z95 ^ 2 / 2) / 8)⁻¹) ^ 8 := h
      _ = ((640000 / 531759 : ℝ)) ^ 8 := by norm_num [z95]
  have hmain : z95 * (1 - 0.95) * Real.sqrt (2 * Real.pi) ≤
      Real.exp (-(z95 ^ 2 / 2)) := by
    have h1 : z95 * (1 - 0.95) * Real.sqrt (2 * Real.pi) ≤
        (((640000 / 531759 : ℝ)) ^ 8)⁻¹ := by
      calc z95 * (1 - 0.95) * Real.sqrt (2 * Real.pi)
          ≤ z95 * (1 - 0.95) * 2.51 :=
            mul_le_mul_of_nonneg_left sqrt_two_pi_le (by norm_num [z95])
        _ ≤ (((640000 / 531759 : ℝ)) ^ 8)⁻¹ := by norm_num [z95]
    have h2 : (((640000 / 531759 : ℝ)) ^ 8)⁻¹ ≤ (Real.exp (z95 ^ 2 / 2))⁻¹ :=
      inv_le_inv_of_le (Real.exp_pos _) hexp
    rw [Real.exp_neg]
    exact h1.trans h2
  rw [stdNormalPdf, div_div, le_div_iff (by positivity)]
  calc z95 * (Real.sqrt (2 * Real.pi) * (1 - 0.95))
      = z95 * (1 - 0.95) * Real.sqrt (2 * Real.pi) := by ring
    _ ≤ Real.exp (-(z95 ^ 2 / 2)) := hmain

lemma tail99 : z99 ≤ stdNormalPdf z99 / (1 - 0.99) := by
  have hexp : Real.exp (z99 ^ 2 / 2) ≤ ((32000000 / 30647431 : ℝ)) ^ 64 := by
    have h := exp_le_pow_bound (z99 ^ 2 / 2) 64 (by norm_num)
      (by norm_num [z99]) (by norm_num [z99])
    calc Real.exp (z99 ^ 2 / 2) ≤ ((1 - (z99 ^ 2 / 2) / 64)⁻¹) ^ 64 := h
      _ = ((32000000 / 30647431 : ℝ)) ^ 64 := by norm_num [z99]
  have hmain : z99 * (1 - 0.99) * Real.sqrt (2 * Real.pi) ≤
      Real.exp (-(z99 ^ 2 / 2)) := by
    have h1 : z99 * (1 - 0.99) * Real.sqrt (2 * Real.pi) ≤
        (((32000000 / 30647431 : ℝ)) ^ 64)⁻¹ := by
      calc z99 * (1 - 0.99) * Real.sqrt (2 * Real.pi)
          ≤ z99 * (1 - 0.99) * 2.51 :=
            mul_le_mul_of_nonneg_left sqrt_two_pi_le (by norm_num [z99])
        _ ≤ (((32000000 / 30647431 : ℝ)) ^ 64)⁻¹ := by norm_num [z99]
    have h2 : (((32000000 / 30647431 : ℝ)) ^ 64)⁻¹ ≤ (Real.exp (z99 ^ 2 / 2))⁻¹ :=
      inv_le_inv_of_le (Real.exp_pos _) hexp
    rw [Real.exp_neg]
    exact h1.trans h2
  rw [stdNormalPdf, div_div, le_div_iff (by positivity)]
  calc z99 * (Real.sqrt (2 * Real.pi) * (1 - 0.99))
      = z99 * (1 - 0.99) * Real.sqrt (2 * Real.pi) := by ring
    _ ≤ Real.exp (-(z99 ^ 2 / 2)) := hmain

/-- C2: for nonnegative 1-day volatility and portfolio value, the parametric
expected shortfall dominates the parametric VaR at both the 95% and the 99%
confidence level. -/
theorem es_ge_var (vol pv : ℝ) (hvol : 0 ≤ vol) (hpv : 0 ≤ pv) :
    parametricVaR z95 vol pv ≤ parametricES z95 0.95 vol pv ∧
    parametricVaR z99 vol pv ≤ parametricES z99 0.99 vol pv := by
  constructor
  · have h2 := mul_le_mul_of_nonneg_left tail95 (mul_nonneg hvol hpv)
    calc parametricVaR z95 vol pv = vol * pv * z95 := by
          unfold parametricVaR; ring
      _ ≤ vol * pv * (stdNormalPdf z95 / (1 - 0.95)) := h2
      _ = parametricES z95 0.95 vol pv := rfl
  · have h2 := mul_le_mul_of_nonneg_left tail99 (mul_nonneg hvol hpv)
    calc parametricVaR z99 vol pv = vol * pv * z99 := by
          unfold parametricVaR; ring
      _ ≤ vol * pv * (stdNormalPdf z99 / (1 - 0.99)) := h2
      _ = parametricES z99 0.99 vol pv := rfl

/-- Witness for C2 at a concrete input: unit volatility and unit portfolio
value. -/
theorem es_ge_var_witness :
    parametricVaR z95 1 1 ≤ parametricES z95 0.95 1 1 ∧
    parametricVaR z99 1 1 ≤ parametricES z99 0.99 1 1 :=
  es_ge_var 1 1 zero_le_one zero_le_one

/-! ## Covariance Estimator (spec 4.2)

Modelled from the spec: the Covariance Estimator lives in `apps/api-server`
which is not among the available sources.  Both methods produce a daily
covariance, annualized ×252, followed by the mandatory PSD post-processing
stage (symmetrize, eigen-decompose, clamp negative eigenvalues to a small
positive floor, reconstruct). -/

/-- The caller-selected covariance estimation method (spec 4.2). -/
inductive CovMethod
  | shrinkage
  | ewma

/-- Modelled from the spec: per-symbol mean of the return matrix column. -/
noncomputable def colMean {T n : ℕ} (R : Fin T → Fin n → ℝ) (j : Fin n) : ℝ :=
  (∑ t, R t j) / T

/-- Modelled from the spec: sample covariance of the return matrix. -/
noncomputable def sampleCov {T n : ℕ} (R : Fin T → Fin n → ℝ) :
    Matrix (Fin n) (Fin n) ℝ :=
  Matrix.of fun j k => (∑ t, (R t j - colMean R j) * (R t k - colMean R k)) / T

/-- Modelled from the spec: exponentially weighted covariance with geometrically
decaying weight `lam^(T−1−t)` on older observations. -/
noncomputable def ewmaCov {T n : ℕ} (lam : ℝ) (R : Fin T → Fin n → ℝ) :
    Matrix (Fin n) (Fin n) ℝ :=
  Matrix.of fun j k =>
    (∑ t, lam ^ (T - 1 - t.val) * (R t j - colMean R j) * (R t k - colMean R k)) /
      (∑ t : Fin T, lam ^ (T - 1 - t.val))

/-- Modelled from the spec: Ledoit-Wolf style shrinkage of the sample
covariance toward its diagonal target, with intensity clamped to [0,1]; the
exact analytic intensity is configurable (spec design note). -/
noncomputable def shrinkageCov {T n : ℕ} (delta : ℝ) (R : Fin T → Fin n → ℝ) :
    Matrix (Fin n) (Fin n) ℝ :=
  let d := max 0 (min 1 delta)
  d • Matrix.diagonal (fun j => sampleCov R j j) + (1 - d) • sampleCov R

/-- Modelled from the spec: daily covariance produced by the selected method. -/
noncomputable def dailyCov {T n : ℕ} (method : CovMethod) (lam delta : ℝ)
    (R : Fin T → Fin n → ℝ) : Matrix (Fin n) (Fin n) ℝ :=
  match method with
  | .shrinkage => shrinkageCov delta R
  | .ewma => ewmaCov lam R

/-- Modelled from the spec: the symmetrization step `(A + Aᵀ)/2` of the PSD
post-processing stage. -/
noncomputable def symmetrize {n : ℕ} (A : Matrix (Fin n) (Fin n) ℝ) :
    Matrix (Fin n) (Fin n) ℝ :=
  (1 / 2 : ℝ) • (A + Aᵀ)

lemma symmetrize_isHermitian {n : ℕ} (A : Matrix (Fin n) (Fin n) ℝ) :
    (symmetrize A).IsHermitian := by
  show (symmetrize A)ᴴ = symmetrize A
  unfold symmetrize
  simp [Matrix.conjTranspose_smul, Matrix.conjTranspose_add,
    Matrix.conjTranspose_eq_transpose_of_trivial, add_comm]

/-- Modelled from the spec: the eigenvalue-clamping step of the PSD
post-processing stage — eigen-decompose the symmetrized matrix, clamp each
eigenvalue to at least the floor `eps`, reconstruct. -/
noncomputable def clampPSD {n : ℕ} (A : Matrix (Fin n) (Fin n) ℝ) (eps : ℝ) :
    Matrix (Fin n) (Fin n) ℝ :=
  ((symmetrize_isHermitian A).eigenvectorUnitary : Matrix (Fin n) (Fin n) ℝ) *
    Matrix.diagonal (fun i => max eps ((symmetrize_isHermitian A).eigenvalues i)) *
    ((symmetrize_isHermitian A).eigenvectorUnitary : Matrix (Fin n) (Fin n) ℝ)ᴴ

/-- Modelled from the spec: the full Covariance Estimator — daily covariance by
the selected method, annualized ×252, then mandatory PSD post-processing. -/
noncomputable def estimateCovariance {T n : ℕ} (method : CovMethod)
    (lam delta eps : ℝ) (R : Fin T → Fin n → ℝ) : Matrix (Fin n) (Fin n) ℝ :=
  clampPSD ((252 : ℝ) • dailyCov method lam delta R) eps

lemma clampPSD_posSemidef {n : ℕ} (A : Matrix (Fin n) (Fin n) ℝ) (eps : ℝ)
    (heps : 0 ≤ eps) : (clampPSD A eps).PosSemidef := by
  have hd : (0 : Fin n → ℝ) ≤
      fun i => max eps ((symmetrize_isHermitian A).eigenvalues i) :=
    fun i => le_trans heps (le_max_left _ _)
  exact (Matrix.PosSemidef.diagonal hd).mul_mul_conjTranspose_same _

/-- C3: for every return matrix, both estimation methods and every positive
eigenvalue floor, the Covariance Estimator's output is symmetric and positive
semi-definite; the estimator is a total function, so no PSD failure can be
surfaced to the caller as an error. -/
theorem estimateCovariance_symm_psd {T n : ℕ} (method : CovMethod)
    (lam delta eps : ℝ) (R : Fin T → Fin n → ℝ) (heps : 0 < eps) :
    (estimateCovariance method lam delta eps R).IsSymm ∧
    (estimateCovariance method lam delta eps R).PosSemidef := by
  have hpsd : (estimateCovariance method lam delta eps R).PosSemidef :=
    clampPSD_posSemidef _ _ heps.le
  refine ⟨?_, hpsd⟩
  show (estimateCovariance method lam delta eps R)ᵀ = _
  rw [← Matrix.conjTranspose_eq_transpose_of_trivial]
  exact hpsd.isHermitian

/-- Witness for C3 at a concrete input: a 1×1 zero return matrix, the
shrinkage method and floor 1. -/
theorem estimateCovariance_symm_psd_witness :
    (estimateCovariance (T := 1) (n := 1) CovMethod.shrinkage 0.94 0.5 1
        (fun _ _ => 0)).IsSymm ∧
    (estimateCovariance (T := 1) (n := 1) CovMethod.shrinkage 0.94 0.5 1
        (fun _ _ => 0)).PosSemidef :=
  estimateCovariance_symm_psd CovMethod.shrinkage 0.94 0.5 1 (fun _ _ => 0) one_pos

/-! ## Correlation & Clustering Engine (spec 4.4)

Modelled from the spec: the Correlation Engine lives in `apps/api-server`
which is not among the available sources; the spec gives
`Correlation_ij = Σ_ij / √(Σ_ii·Σ_jj)`. -/

/-- Modelled from the spec: the correlation matrix derived from a covariance
matrix, `Correlation_ij = Σ_ij / √(Σ_ii·Σ_jj)` (spec 4.4). -/
noncomputable def corrMatrix {n : ℕ} (cov : Matrix (Fin n) (Fin n) ℝ) :
    Matrix (Fin n) (Fin n) ℝ :=
  Matrix.of fun i j => cov i j / Real.sqrt (cov i i * cov j j)

/-- Counterexample to C7 as stated: the 1×1 zero matrix is a symmetric,
positive semi-definite covariance matrix, yet its correlation matrix does not
have a unit diagonal (the diagonal entry is 0, a 0/0; in floating point a
NaN). -/
theorem corrMatrix_unit_diag_cex :
    (0 : Matrix (Fin 1) (Fin 1) ℝ).IsSymm ∧
    (0 : Matrix (Fin 1) (Fin 1) ℝ).PosSemidef ∧
    corrMatrix (0 : Matrix (Fin 1) (Fin 1) ℝ) 0 0 ≠ 1 := by
  refine ⟨Matrix.transpose_zero, Matrix.PosSemidef.zero, ?_⟩
  simp [corrMatrix]

/-- C7 (amended): for every symmetric covariance input the derived correlation
matrix is symmetric, and every diagonal entry with strictly positive variance
equals 1 (the engine's eigenvalue floor keeps all variances strictly
positive, so on engine outputs the whole diagonal is 1). -/
theorem corrMatrix_symm_unit_diag {n : ℕ} (cov : Matrix (Fin n) (Fin n) ℝ)
    (hsym : cov.IsSymm) :
    (∀ i j, corrMatrix cov i j = corrMatrix cov j i) ∧
    (∀ i, 0 < cov i i → corrMatrix cov i i = 1) := by
  constructor
  · intro i j
    simp only [corrMatrix, Matrix.of_apply]
    rw [hsym.apply i j, mul_comm]
  · intro i hpos
    simp only [corrMatrix, Matrix.of_apply]
    rw [Real.sqrt_mul_self hpos.le]
    exact div_self hpos.ne'

/-- Witness for the amended C7 at a concrete input: the 1×1 identity
covariance. -/
theorem corrMatrix_symm_unit_diag_witness :
    corrMatrix (1 : Matrix (Fin 1) (Fin 1) ℝ) 0 0 = 1 :=
  (corrMatrix_symm_unit_diag 1 Matrix.transpose_one).2 0
    (by rw [Matrix.one_apply_eq]; exact one_pos)

/-! ## Risk API client types (src/unnamed/part_012 and part_013) -/

/-- Field names of the `RiskSummary` interface exactly as declared in the risk
API client (src/unnamed/part_012 lines 9–28; identical in part_013). -/
def riskSummaryFields : List String :=
  ["vol_1d", "vol_1d_pct", "vol_5d", "vol_5d_pct", "var_95_1d",
   "var_95_1d_pct", "es_95_1d", "es_95_1d_pct", "var_95_5d", "es_95_5d",
   "top_5_concentration_pct", "hhi", "top_5_names", "num_positions",
   "portfolio_value", "window", "method", "asof_date"]

/-- Counterexample to C4 as stated: the `RiskSummary` interface declares no
`var_99_1d`, no `es_99_1d` and no `effective_n` field. -/
theorem riskSummary_missing_99_fields :
    ("var_99_1d" ∉ riskSummaryFields) ∧ ("es_99_1d" ∉ riskSummaryFields) ∧
    ("effective_n" ∉ riskSummaryFields) := by
  decide

/-- C4 (amended): the `RiskSummary` interface carries volatility, VaR and ES
at the 95% level only (1-day in currency and percent plus 5-day), HHI, top-5
concentration, position count and portfolio value, together with the window,
method and as-of-date echo; it has no 99%-level field and no effective-N
field. -/
theorem riskSummary_fields_amended :
    ("vol_1d" ∈ riskSummaryFields) ∧ ("vol_1d_pct" ∈ riskSummaryFields) ∧
    ("vol_5d" ∈ riskSummaryFields) ∧ ("vol_5d_pct" ∈ riskSummaryFields) ∧
    ("var_95_1d" ∈ riskSummaryFields) ∧ ("es_95_1d" ∈ riskSummaryFields) ∧
    ("hhi" ∈ riskSummaryFields) ∧
    ("top_5_concentration_pct" ∈ riskSummaryFields) ∧
    ("top_5_names" ∈ riskSummaryFields) ∧
    ("num_positions" ∈ riskSummaryFields) ∧
    ("portfolio_value" ∈ riskSummaryFields) ∧
    ("var_99_1d" ∉ riskSummaryFields) ∧ ("es_99_1d" ∉ riskSummaryFields) ∧
    ("effective_n" ∉ riskSummaryFields) := by
  decide

/-- The `RiskSummary` interface of the risk API client.  All numeric fields
are declared `number`; `vol_1d_pct` is modelled as optional because
`page.tsx` checks it against null (`summary.vol_1d_pct != null`) to detect a
metadata-only payload. -/
structure RiskSummary where
  vol_1d : ℚ
  vol_1d_pct : Option ℚ
  vol_5d : ℚ
  vol_5d_pct : ℚ
  var_95_1d : ℚ
  var_95_1d_pct : ℚ
  es_95_1d : ℚ
  es_95_1d_pct : ℚ
  var_95_5d : ℚ
  es_95_5d : ℚ
  top_5_concentration_pct : ℚ
  hhi : ℚ
  top_5_names : List String
  num_positions : ℕ
  portfolio_value : ℚ
  window : ℕ
  method : String
  asof_date : String

/-- The `RiskContributor` interface of the risk API client. -/
structure RiskContributor where
  symbol : String
  weight_pct : ℚ
  mcr : ℚ
  ccr : ℚ
  ccr_pct : ℚ
  standalone_vol_ann : ℚ

/-- The `CorrelationPair` interface of the risk API client. -/
structure CorrelationPair where
  symbol_a : String
  symbol_b : String
  correlation : ℚ

/-- The `ClusterInfo` interface of the risk API client. -/
structure ClusterInfo where
  cluster_id : ℕ
  members : List String
  size : ℕ
  avg_intra_corr : ℚ
  gross_exposure_pct : ℚ
  net_exposure_pct : ℚ

/-! ## loadRiskData (src/apps/web/src/app/page.tsx lines 460–494) -/

/-- The risk-tab React state touched by `loadRiskData`, parametrized by the
data-quality and metadata payload types. -/
structure RiskPackState (Q M : Type) where
  riskSummary : Option RiskSummary
  riskContributors : List RiskContributor
  correlationPairs : List CorrelationPair
  clusters : List ClusterInfo
  dataQuality : Option Q
  riskMetadata : Option M
  error : Option String

/-- `Promise.all` over the four core risk fetches: succeeds with all four
results, or fails with the error of a failing fetch (determinized here to the
first in argument order). -/
def promiseAll4 {α β γ δ : Type} :
    Except String α → Except String β → Except String γ → Except String δ →
    Except String (α × β × γ × δ)
  | .error e, _, _, _ => .error e
  | .ok _, .error e, _, _ => .error e
  | .ok _, .ok _, .error e, _ => .error e
  | .ok _, .ok _, .ok _, .error e => .error e
  | .ok a, .ok b, .ok c, .ok d => .ok (a, b, c, d)

/-- Whether an `Except` is in the error case. -/
def isErr {ε α : Type} : Except ε α → Bool
  | .error _ => true
  | .ok _ => false

/-- `loadRiskData` from page.tsx: awaits the four core risk fetches together;
on success installs all four results (nulling the summary when it lacks
`vol_1d_pct`) and then tries the two degradable phase-1.5 fetches; on failure
of any core fetch it only records the error message. -/
def loadRiskData {Q M : Type} (st : RiskPackState Q M)
    (fs : Except String RiskSummary) (fc : Except String (List RiskContributor))
    (fp : Except String (List CorrelationPair))
    (fcl : Except String (List ClusterInfo))
    (fq : Except String Q) (fm : Except String M) : RiskPackState Q M :=
  match promiseAll4 fs fc fp fcl with
  | .error e => { st with error := some e }
  | .ok (s, c, p, cl) =>
    let st1 : RiskPackState Q M :=
      { st with
        riskSummary := if s.vol_1d_pct.isSome then some s else none
        riskContributors := c
        correlationPairs := p
        clusters := cl
        error := none }
    match fq, fm with
    | .ok q, .ok m => { st1 with dataQuality := some q, riskMetadata := some m }
    | _, _ => st1

/-- C6: whenever any of the four core risk fetches fails, `loadRiskData`
leaves all four corresponding result states exactly as they were — the caller
never sees a partially updated pack — and surfaces the failure in the error
state. -/
theorem loadRiskData_atomic {Q M : Type} (st : RiskPackState Q M)
    (fs : Except String RiskSummary) (fc : Except String (List RiskContributor))
    (fp : Except String (List CorrelationPair))
    (fcl : Except String (List ClusterInfo))
    (fq : Except String Q) (fm : Except String M)
    (hfail : isErr fs = true ∨ isErr fc = true ∨ isErr fp = true ∨
      isErr fcl = true) :
    (loadRiskData st fs fc fp fcl fq fm).riskSummary = st.riskSummary ∧
    (loadRiskData st fs fc fp fcl fq fm).riskContributors =
      st.riskContributors ∧
    (loadRiskData st fs fc fp fcl fq fm).correlationPairs =
      st.correlationPairs ∧
    (loadRiskData st fs fc fp fcl fq fm).clusters = st.clusters ∧
    (loadRiskData st fs fc fp fcl fq fm).error.isSome = true := by
  cases fs <;> cases fc <;> cases fp <;> cases fcl <;>
    simp_all [loadRiskData, promiseAll4, isErr]

/-- Witness for C6 at a concrete input: an empty initial state and a failing
risk-summary fetch. -/
theorem loadRiskData_atomic_witness :
    (loadRiskData (Q := Unit) (M := Unit) ⟨none, [], [], [], none, none, none⟩
      (.error "upstream unreachable") (.ok []) (.ok []) (.ok [])
      (.ok ()) (.ok ())).error.isSome = true :=
  (loadRiskData_atomic ⟨none, [], [], [], none, none, none⟩
    (.error "upstream unreachable") (.ok []) (.ok []) (.ok [])
    (.ok ()) (.ok ()) (Or.inl rfl)).2.2.2.2

/-! ## Orchestrator/Cache (spec 4.6, src/BACKEND_API_IMPLEMENTATION.md 49–52)

Modelled from the spec: the orchestrator lives in `apps/api-server` which is
not among the available sources; the cache step follows spec 4.6 steps 4–5
and the backend document's caching strategy. -/

/-- The structured cache key `(result_type, as-of date, window, method,
portfolio hash)` (spec data model, design note on structured keys). -/
structure CacheKey where
  result_type : String
  asof_date : String
  window : ℕ
  method : String
  portfolio_hash : String
deriving DecidableEq

/-- Modelled from the spec: the cache step of `compute_risk_pack` — with
`force` false, return a cached entry on hit; otherwise compute fresh, store
the new entry under the key and return it.  The cache is a map from keys to
immutable entries; storing writes only the given key. -/
def computeRiskPack {α : Type} (cache : CacheKey → Option α) (key : CacheKey)
    (force : Bool) (fresh : α) : (CacheKey → Option α) × α :=
  match force, cache key with
  | false, some r => (cache, r)
  | _, _ => (fun k => if k = key then some fresh else cache k, fresh)

/-- C5: cache-hit calls with `force = false` return the stored entry with the
cache untouched, so two successive calls with the same key return identical
results; `force = true` always computes and stores a fresh entry; and a call
never touches any entry stored under a different key. -/
theorem computeRiskPack_cache_semantics {α : Type}
    (cache : CacheKey → Option α) (key : CacheKey) (fresh fresh₂ : α) :
    (∀ r, cache key = some r →
      computeRiskPack cache key false fresh = (cache, r)) ∧
    ((computeRiskPack (computeRiskPack cache key false fresh).1 key false
        fresh₂).2 = (computeRiskPack cache key false fresh).2) ∧
    ((computeRiskPack cache key true fresh).2 = fresh ∧
      (computeRiskPack cache key true fresh).1 key = some fresh) ∧
    (∀ (force : Bool) (k : CacheKey), k ≠ key →
      (computeRiskPack cache key force fresh).1 k = cache k) := by
  refine ⟨?_, ?_, ⟨?_, ?_⟩, ?_⟩
  · intro r h
    simp [computeRiskPack, h]
  · cases h : cache key with
    | none => simp [computeRiskPack, h]
    | some r => simp [computeRiskPack, h]
  · simp [computeRiskPack]
  · simp [computeRiskPack]
  · intro force k hk
    cases force <;> cases h : cache key <;> simp [computeRiskPack, h, hk]

/-- Witness for C5 at a concrete input: a cache holding 7 under the key
returns 7 unchanged on a `force = false` call. -/
theorem computeRiskPack_cache_semantics_witness :
    computeRiskPack (fun _ => some 7)
      ⟨"summary", "2025-01-01", 252, "lw", "h1"⟩ false 9 =
      ((fun _ => some 7), 7) :=
  (computeRiskPack_cache_semantics (fun _ => some 7)
    ⟨"summary", "2025-01-01", 252, "lw", "h1"⟩ 9 0).1 7 rfl

/-! ## fetchWithRetry (src/unnamed/part_011 lines 24–50) -/

/-- A browser `Response` as observed by the API client: the `ok` flag,
status, status text and the JSON body. -/
structure Response where
  ok : Bool
  status : ℕ
  statusText : String
  body : String
deriving DecidableEq

/-- The outcome of one `fetch` attempt: the promise resolves with a
`Response` (whatever its `ok` flag) or rejects with a thrown error. -/
inductive FetchOutcome
  | resolve (r : Response)
  | reject (e : String)
deriving DecidableEq

/-- `DEFAULT_TIMEOUT_MS` from the API client. -/
def DEFAULT_TIMEOUT_MS : ℕ := 20000

/-- `RETRY_DELAY_MS` from the API client. -/
def RETRY_DELAY_MS : ℕ := 2000

/-- `MAX_RETRIES` from the API client. -/
def MAX_RETRIES : ℕ := 3

/-- The retry loop of `fetchWithRetry`: attempt `i` with `fuel` attempts
remaining and `last` the most recent thrown error; returns the result
together with the number of `fetch` calls performed.  A resolved attempt is
returned immediately; a rejected attempt records the error and retries; when
the attempts are exhausted the last error is rethrown. -/
def fetchWithRetryGo (attempts : ℕ → FetchOutcome) :
    ℕ → ℕ → Option String → Except (Option String) Response × ℕ
  | _, 0, last => (.error last, 0)
  | i, fuel + 1, _ =>
    match attempts i with
    | .resolve r => (.ok r, 1)
    | .reject e =>
      let p := fetchWithRetryGo attempts (i + 1) fuel (some e)
      (p.1, p.2 + 1)

/-- `fetchWithRetry` from the API client: up to `retries + 1` attempts
starting from attempt 0 with no error recorded yet. -/
def fetchWithRetry (attempts : ℕ → FetchOutcome) (retries : ℕ) :
    Except (Option String) Response × ℕ :=
  fetchWithRetryGo attempts 0 (retries + 1) none

lemma fetchWithRetryGo_count_le (attempts : ℕ → FetchOutcome) :
    ∀ (fuel i : ℕ) (last : Option String),
      (fetchWithRetryGo attempts i fuel last).2 ≤ fuel := by
  intro fuel
  induction fuel with
  | zero => intro i last; simp [fetchWithRetryGo]
  | succ n ih =>
    intro i last
    rw [fetchWithRetryGo]
    cases h : attempts i with
    | resolve r => simp
    | reject e => simpa using ih (i + 1) (some e)

lemma fetchWithRetryGo_resolve (attempts : ℕ → FetchOutcome) :
    ∀ (fuel k i : ℕ) (r : Response) (last : Option String), k < fuel →
      attempts (i + k) = .resolve r →
      (∀ j, j < k → ∃ e, attempts (i + j) = .reject e) →
      (fetchWithRetryGo attempts i fuel last).1 = .ok r := by
  intro fuel
  induction fuel with
  | zero => intro k i r last hk; omega
  | succ n ih =>
    intro k i r last hk hres hrej
    rw [fetchWithRetryGo]
    cases k with
    | zero =>
      rw [show i + 0 = i from rfl] at hres
      rw [hres]
    | succ k' =>
      obtain ⟨e, he⟩ := hrej 0 (Nat.succ_pos k')
      rw [show i + 0 = i from rfl] at he
      rw [he]
      simp only
      exact ih k' (i + 1) r (some e) (Nat.lt_of_succ_lt_succ hk)
        (by rw [show i + 1 + k' = i + (k' + 1) by omega]; exact hres)
        (fun j hj => by
          rw [show i + 1 + j = i + (j + 1) by omega]
          exact hrej (j + 1) (Nat.succ_lt_succ hj))

lemma fetchWithRetryGo_all_reject (attempts : ℕ → FetchOutcome) :
    ∀ (fuel i : ℕ) (last : Option String) (e : String), 0 < fuel →
      (∀ j, j < fuel → ∃ e', attempts (i + j) = .reject e') →
      attempts (i + (fuel - 1)) = .reject e →
      (fetchWithRetryGo attempts i fuel last).1 = .error (some e) := by
  intro fuel
  induction fuel with
  | zero => intro i last e h; omega
  | succ n ih =>
    intro i last e _ hrej hlast
    obtain ⟨e0, he0⟩ := hrej 0 (Nat.succ_pos n)
    rw [show i + 0 = i from rfl] at he0
    rw [fetchWithRetryGo, he0]
    simp only
    cases n with
    | zero =>
      rw [show i + (0 + 1 - 1) = i by omega] at hlast
      rw [he0] at hlast
      cases hlast
      simp [fetchWithRetryGo]
    | succ m =>
      exact ih (i + 1) (some e0) e (Nat.succ_pos m)
        (fun j hj => by
          rw [show i + 1 + j = i + (j + 1) by omega]
          exact hrej (j + 1) (Nat.succ_lt_succ hj))
        (by rw [show i + 1 + (m + 1 - 1) = i + (m + 2 - 1) by omega]; exact hlast)

lemma fetchWithRetryGo_error_imp (attempts : ℕ → FetchOutcome) :
    ∀ (fuel i : ℕ) (last err : Option String),
      (fetchWithRetryGo attempts i fuel last).1 = .error err →
      ∀ j, j < fuel → ∃ e, attempts (i + j) = .reject e := by
  intro fuel
  induction fuel with
  | zero => intro i last err _ j hj; omega
  | succ n ih =>
    intro i last err herr j hj
    rw [fetchWithRetryGo] at herr
    cases h : attempts i with
    | resolve r => rw [h] at herr; simp at herr
    | reject e =>
      rw [h] at herr
      simp only at herr
      cases j with
      | zero => exact ⟨e, by rw [show i + 0 = i from rfl]; exact h⟩
      | succ j' =>
        have := ih (i + 1) (some e) err herr j' (Nat.lt_of_succ_lt_succ hj)
        rw [show i + 1 + j' = i + (j' + 1) by omega] at this
        exact this

/-- C9: `fetchWithRetry` performs at most `retries + 1` fetch attempts (4 by
default, with a 20-second per-attempt timeout and 2-second delays between
attempts); it returns the response of the first attempt that resolves —
whatever its `ok` flag — and it throws exactly when every attempt rejects,
rethrowing the last attempt's error. -/
theorem fetchWithRetry_spec :
    (MAX_RETRIES + 1 = 4 ∧ DEFAULT_TIMEOUT_MS = 20000 ∧
      RETRY_DELAY_MS = 2000) ∧
    (∀ (attempts : ℕ → FetchOutcome) (retries : ℕ),
      (fetchWithRetry attempts retries).2 ≤ retries + 1) ∧
    (∀ (attempts : ℕ → FetchOutcome) (retries i : ℕ) (r : Response),
      i ≤ retries → attempts i = .resolve r →
      (∀ j, j < i → ∃ e, attempts j = .reject e) →
      (fetchWithRetry attempts retries).1 = .ok r) ∧
    (∀ (attempts : ℕ → FetchOutcome) (retries : ℕ) (e : String),
      (∀ j, j ≤ retries → ∃ e', attempts j = .reject e') →
      attempts retries = .reject e →
      (fetchWithRetry attempts retries).1 = .error (some e)) ∧
    (∀ (attempts : ℕ → FetchOutcome) (retries : ℕ) (err : Option String),
      (fetchWithRetry attempts retries).1 = .error err →
      ∀ j, j ≤ retries → ∃ e, attempts j = .reject e) := by
  refine ⟨⟨rfl, rfl, rfl⟩, ?_, ?_, ?_, ?_⟩
  · intro attempts retries
    exact fetchWithRetryGo_count_le attempts (retries + 1) 0 none
  · intro attempts retries i r hi hres hrej
    exact fetchWithRetryGo_resolve attempts (retries + 1) i 0 r none
      (Nat.lt_succ_of_le hi) (by simpa using hres) (by simpa using hrej)
  · intro attempts retries e hrej hlast
    exact fetchWithRetryGo_all_reject attempts (retries + 1) 0 none e
      (Nat.succ_pos retries)
      (fun j hj => by simpa using hrej j (Nat.lt_succ_iff.mp hj))
      (by simpa using hlast)
  · intro attempts retries err herr j hj
    have := fetchWithRetryGo_error_imp attempts (retries + 1) 0 none err herr j
      (Nat.lt_succ_of_le hj)
    simpa using this

/-- Witness for C9 at a concrete input: an attempt sequence whose first
attempt resolves with an `ok = false` response is returned as-is after one
fetch call, with no retry. -/
theorem fetchWithRetry_spec_witness :
    (fetchWithRetry (fun _ => .resolve ⟨false, 500, "Server Error", ""⟩) 3).1 =
      .ok ⟨false, 500, "Server Error", ""⟩ :=
  fetchWithRetry_spec.2.2.1 (fun _ => .resolve ⟨false, 500, "Server Error", ""⟩)
    3 0 ⟨false, 500, "Server Error", ""⟩ (Nat.zero_le 3) rfl
    (fun j hj => absurd hj (Nat.not_lt_zero j))

/-- `API_URL` from the API client: `NEXT_PUBLIC_API_URL` with the
`http://localhost:8000` fallback; both risk API modules import the same
binding, modelled by its fallback value. -/
def API_URL : String := "http://localhost:8000"

/-! ## Risk API fetchers, newer module (src/unnamed/part_012)

Each fetcher is split into the request it issues — `(url, http method)`,
with omitted caller arguments modelled as `none` and TypeScript default
parameters applied via `getD` — and its behavior on the attempt outcomes. -/

namespace RiskApiNew

def fetchRiskSummaryReq (window : Option ℕ) (method : Option String) :
    String × String :=
  (API_URL ++ "/risk/summary?window=" ++ toString (window.getD 252) ++
    "&method=" ++ method.getD "lw", "GET")

def fetchRiskContributorsReq (window : Option ℕ) (method : Option String) :
    String × String :=
  (API_URL ++ "/risk/contributors?window=" ++ toString (window.getD 252) ++
    "&method=" ++ method.getD "lw", "GET")

def fetchCorrelationPairsReq (window n : Option ℕ) : String × String :=
  (API_URL ++ "/risk/correlation/pairs?window=" ++ toString (window.getD 252) ++
    "&n=" ++ toString (n.getD 20), "GET")

def fetchClustersReq (window : Option ℕ) : String × String :=
  (API_URL ++ "/risk/clusters?window=" ++ toString (window.getD 252), "GET")

def fetchStressTestsReq : String × String :=
  (API_URL ++ "/risk/stress", "GET")

def fetchDataQualityReq (window : Option ℕ) (method : Option String) :
    String × String :=
  (API_URL ++ "/risk/data-quality?window=" ++ toString (window.getD 252) ++
    "&method=" ++ method.getD "lw", "GET")

def fetchRiskMetadataReq (window : Option ℕ) (method : Option String) :
    String × String :=
  (API_URL ++ "/risk/metadata?window=" ++ toString (window.getD 252) ++
    "&method=" ++ method.getD "lw", "GET")

def triggerRiskRecomputeReq : String × String :=
  (API_URL ++ "/risk/recompute", "POST")

def fetchRiskSummaryRes (attempts : ℕ → FetchOutcome) :
    Except (Option String) String :=
  match (fetchWithRetry attempts MAX_RETRIES).1 with
  | .error e => .error e
  | .ok res =>
    if res.ok then .ok res.body
    else .error (some ("Failed to fetch risk summary: " ++
      toString res.status ++ " " ++ res.statusText))

def fetchRiskContributorsRes (attempts : ℕ → FetchOutcome) :
    Except (Option String) String :=
  match (fetchWithRetry attempts MAX_RETRIES).1 with
  | .error e => .error e
  | .ok res =>
    if res.ok then .ok res.body
    else .error (some ("Failed to fetch risk contributors: " ++
      toString res.status ++ " " ++ res.statusText))

def fetchCorrelationPairsRes (attempts : ℕ → FetchOutcome) :
    Except (Option String) String :=
  match (fetchWithRetry attempts MAX_RETRIES).1 with
  | .error e => .error e
  | .ok res =>
    if res.ok then .ok res.body
    else .error (some ("Failed to fetch correlation pairs: " ++
      toString res.status ++ " " ++ res.statusText))

def fetchClustersRes (attempts : ℕ → FetchOutcome) :
    Except (Option String) String :=
  match (fetchWithRetry attempts MAX_RETRIES).1 with
  | .error e => .error e
  | .ok res =>
    if res.ok then .ok res.body
    else .error (some ("Failed to fetch clusters: " ++
      toString res.status ++ " " ++ res.statusText))

def fetchStressTestsRes (attempts : ℕ → FetchOutcome) :
    Except (Option String) String :=
  match (fetchWithRetry attempts MAX_RETRIES).1 with
  | .error e => .error e
  | .ok res =>
    if res.ok then .ok res.body
    else .error (some ("Failed to fetch stress tests: " ++
      toString res.status ++ " " ++ res.statusText))

def triggerRiskRecomputeRes (attempts : ℕ → FetchOutcome) :
    Except (Option String) Unit :=
  match (fetchWithRetry attempts MAX_RETRIES).1 with
  | .error e => .error e
  | .ok res =>
    if res.ok then .ok ()
    else .error (some ("Failed to trigger risk recompute: " ++
      toString res.status ++ " " ++ res.statusText))

end RiskApiNew

/-! ## Risk API fetchers, older module (src/unnamed/part_013)

Same request shapes, but each fetcher performs one plain `fetch` attempt and
never retries. -/

namespace RiskApiOld

def fetchRiskSummaryReq (window : Option ℕ) (method : Option String) :
    String × String :=
  (API_URL ++ "/risk/summary?window=" ++ toString (window.getD 252) ++
    "&method=" ++ method.getD "lw", "GET")

def fetchRiskContributorsReq (window : Option ℕ) (method : Option String) :
    String × String :=
  (API_URL ++ "/risk/contributors?window=" ++ toString (window.getD 252) ++
    "&method=" ++ method.getD "lw", "GET")

def fetchCorrelationPairsReq (window n : Option ℕ) : String × String :=
  (API_URL ++ "/risk/correlation/pairs?window=" ++ toString (window.getD 252) ++
    "&n=" ++ toString (n.getD 20), "GET")

def fetchClustersReq (window : Option ℕ) : String × String :=
  (API_URL ++ "/risk/clusters?window=" ++ toString (window.getD 252), "GET")

def fetchStressTestsReq : String × String :=
  (API_URL ++ "/risk/stress", "GET")

def triggerRiskRecomputeReq : String × String :=
  (API_URL ++ "/risk/recompute", "POST")

def fetchRiskSummaryRes (att : FetchOutcome) : Except (Option String) String :=
  match att with
  | .reject e => .error (some e)
  | .resolve res =>
    if res.ok then .ok res.body
    else .error (some ("Failed to fetch risk summary: " ++
      toString res.status ++ " " ++ res.statusText))

def fetchRiskContributorsRes (att : FetchOutcome) :
    Except (Option String) String :=
  match att with
  | .reject e => .error (some e)
  | .resolve res =>
    if res.ok then .ok res.body
    else .error (some ("Failed to fetch risk contributors: " ++
      toString res.status ++ " " ++ res.statusText))

def fetchCorrelationPairsRes (att : FetchOutcome) :
    Except (Option String) String :=
  match att with
  | .reject e => .error (some e)
  | .resolve res =>
    if res.ok then .ok res.body
    else .error (some ("Failed to fetch correlation pairs: " ++
      toString res.status ++ " " ++ res.statusText))

def fetchClustersRes (att : FetchOutcome) : Except (Option String) String :=
  match att with
  | .reject e => .error (some e)
  | .resolve res =>
    if res.ok then .ok res.body
    else .error (some ("Failed to fetch clusters: " ++
      toString res.status ++ " " ++ res.statusText))

def fetchStressTestsRes (att : FetchOutcome) : Except (Option String) String :=
  match att with
  | .reject e => .error (some e)
  | .resolve res =>
    if res.ok then .ok res.body
    else .error (some ("Failed to fetch stress tests: " ++
      toString res.status ++ " " ++ res.statusText))

def triggerRiskRecomputeRes (att : FetchOutcome) : Except (Option String) Unit :=
  match att with
  | .reject e => .error (some e)
  | .resolve res =>
    if res.ok then .ok ()
    else .error (some ("Failed to trigger risk recompute: " ++
      toString res.status ++ " " ++ res.statusText))

end RiskApiOld

/-! ## Risk selection UI state (page.tsx lines 307–308, part_008 toggles) -/

/-- The dashboard's risk selection state `(riskWindow, riskMethod)`. -/
structure RiskSelection where
  window : ℕ
  method : String

/-- The initial risk selection state from page.tsx: `useState(252)` and
`useState("lw")`. -/
def initialRiskSelection : RiskSelection := ⟨252, "lw"⟩

/-- The only selection changes the UI offers: the four toggle buttons of the
risk summary panel. -/
inductive RiskSelEvent
  | window60
  | window252
  | methodLw
  | methodEwma

/-- One toggle-button click applied to the selection state. -/
def stepRiskSelection (s : RiskSelection) : RiskSelEvent → RiskSelection
  | .window60 => { s with window := 60 }
  | .window252 => { s with window := 252 }
  | .methodLw => { s with method := "lw" }
  | .methodEwma => { s with method := "ewma" }

lemma riskSelection_invariant (evs : List RiskSelEvent) (s : RiskSelection)
    (hs : (s.window = 60 ∨ s.window = 252) ∧
      (s.method = "lw" ∨ s.method = "ewma")) :
    ((evs.foldl stepRiskSelection s).window = 60 ∨
      (evs.foldl stepRiskSelection s).window = 252) ∧
    ((evs.foldl stepRiskSelection s).method = "lw" ∨
      (evs.foldl stepRiskSelection s).method = "ewma") := by
  induction evs generalizing s with
  | nil => exact hs
  | cons e t ih =>
    cases e with
    | window60 => exact ih _ ⟨Or.inl rfl, hs.2⟩
    | window252 => exact ih _ ⟨Or.inr rfl, hs.2⟩
    | methodLw => exact ih _ ⟨hs.1, Or.inl rfl⟩
    | methodEwma => exact ih _ ⟨hs.1, Or.inr rfl⟩

/-- C8: with the caller's arguments omitted, the four named risk fetchers
issue the request for window 252 and the shrinkage method `lw`; and from the
initial dashboard state, any sequence of UI toggle events keeps the window in
{60, 252} and the method in {lw, ewma}, so those are the only values ever
sent to the engine. -/
theorem risk_fetch_defaults :
    RiskApiNew.fetchRiskSummaryReq none none =
      RiskApiNew.fetchRiskSummaryReq (some 252) (some "lw") ∧
    RiskApiNew.fetchRiskContributorsReq none none =
      RiskApiNew.fetchRiskContributorsReq (some 252) (some "lw") ∧
    RiskApiNew.fetchDataQualityReq none none =
      RiskApiNew.fetchDataQualityReq (some 252) (some "lw") ∧
    RiskApiNew.fetchRiskMetadataReq none none =
      RiskApiNew.fetchRiskMetadataReq (some 252) (some "lw") ∧
    (∀ evs : List RiskSelEvent,
      ((evs.foldl stepRiskSelection initialRiskSelection).window = 60 ∨
        (evs.foldl stepRiskSelection initialRiskSelection).window = 252) ∧
      ((evs.foldl stepRiskSelection initialRiskSelection).method = "lw" ∨
        (evs.foldl stepRiskSelection initialRiskSelection).method = "ewma")) :=
  ⟨rfl, rfl, rfl, rfl, fun evs =>
    riskSelection_invariant evs initialRiskSelection ⟨Or.inr rfl, Or.inl rfl⟩⟩

lemma fetchWithRetry_first_resolve (attempts : ℕ → FetchOutcome)
    (retries : ℕ) (r : Response) (h : attempts 0 = .resolve r) :
    (fetchWithRetry attempts retries).1 = .ok r :=
  fetchWithRetryGo_resolve attempts (retries + 1) 0 0 r none
    (Nat.succ_pos retries) (by simpa using h)
    (fun j hj => absurd hj (Nat.not_lt_zero j))

/-- C10: every risk fetcher of the newer module issues exactly the same
request (URL and HTTP method) as its counterpart in the older module, and
whenever the first network attempt resolves the two modules return identical
results — the parsed body on `ok`, the same status/statusText error
otherwise. -/
theorem riskApi_new_matches_old :
    (∀ w m, RiskApiNew.fetchRiskSummaryReq w m =
      RiskApiOld.fetchRiskSummaryReq w m) ∧
    (∀ w m, RiskApiNew.fetchRiskContributorsReq w m =
      RiskApiOld.fetchRiskContributorsReq w m) ∧
    (∀ w c, RiskApiNew.fetchCorrelationPairsReq w c =
      RiskApiOld.fetchCorrelationPairsReq w c) ∧
    (∀ w, RiskApiNew.fetchClustersReq w = RiskApiOld.fetchClustersReq w) ∧
    RiskApiNew.fetchStressTestsReq = RiskApiOld.fetchStressTestsReq ∧
    RiskApiNew.triggerRiskRecomputeReq = RiskApiOld.triggerRiskRecomputeReq ∧
    (∀ (attempts : ℕ → FetchOutcome) (r : Response),
      attempts 0 = .resolve r →
      RiskApiNew.fetchRiskSummaryRes attempts =
        RiskApiOld.fetchRiskSummaryRes (attempts 0) ∧
      RiskApiNew.fetchRiskContributorsRes attempts =
        RiskApiOld.fetchRiskContributorsRes (attempts 0) ∧
      RiskApiNew.fetchCorrelationPairsRes attempts =
        RiskApiOld.fetchCorrelationPairsRes (attempts 0) ∧
      RiskApiNew.fetchClustersRes attempts =
        RiskApiOld.fetchClustersRes (attempts 0) ∧
      RiskApiNew.fetchStressTestsRes attempts =
        RiskApiOld.fetchStressTestsRes (attempts 0) ∧
      RiskApiNew.triggerRiskRecomputeRes attempts =
        RiskApiOld.triggerRiskRecomputeRes (attempts 0)) := by
  refine ⟨fun _ _ => rfl, fun _ _ => rfl, fun _ _ => rfl, fun _ => rfl, rfl,
    rfl, ?_⟩
  intro attempts r h
  have hf := fetchWithRetry_first_resolve attempts MAX_RETRIES r h
  refine ⟨?_, ?_, ?_, ?_, ?_, ?_⟩ <;>
    simp [RiskApiNew.fetchRiskSummaryRes, RiskApiOld.fetchRiskSummaryRes,
      RiskApiNew.fetchRiskContributorsRes, RiskApiOld.fetchRiskContributorsRes,
      RiskApiNew.fetchCorrelationPairsRes, RiskApiOld.fetchCorrelationPairsRes,
      RiskApiNew.fetchClustersRes, RiskApiOld.fetchClustersRes,
      RiskApiNew.fetchStressTestsRes, RiskApiOld.fetchStressTestsRes,
      RiskApiNew.triggerRiskRecomputeRes, RiskApiOld.triggerRiskRecomputeRes,
      hf, h]

/-- Witness for C10 at a concrete input: a first attempt resolving with a
successful response makes the two risk-summary fetchers agree. -/
theorem riskApi_new_matches_old_witness :
    RiskApiNew.fetchRiskSummaryRes (fun _ => .resolve ⟨true, 200, "OK", "s"⟩) =
      RiskApiOld.fetchRiskSummaryRes
        ((fun _ => FetchOutcome.resolve ⟨true, 200, "OK", "s"⟩) 0) :=
  (riskApi_new_matches_old.2.2.2.2.2.2
    (fun _ => .resolve ⟨true, 200, "OK", "s"⟩) ⟨true, 200, "OK", "s"⟩ rfl).1

end Trading
